import Mathlib

/-!
Shallow embedding of the Pomodoro timer core of `sfrechette/pomodoro-timer-dial`.

The embedding covers the session timer engine: the `TimerManager` class
(`src/TimerManager.cpp`, `TimerManager.h`) and the corresponding monolithic
free functions of `src/main.cpp` (`startTimer`, `pauseTimer`, `resumeTimer`,
`resetTimer`, `updateTimer`, `handleTimerCompletion`, `completeSession`).

Machine integers are modelled by `Nat` with explicit reduction modulo `2^32`
(for `uint32_t` timestamps and durations) and modulo `256` (for the
`uint8_t` completed-pomodoro counter) exactly where the C++ arithmetic wraps.
`millis()` readings are passed in explicitly as `now` parameters; the
hardware, display and serial side effects of the source are irrelevant to
the mutated state and are not modelled.
-/

/-- Wrap modulus of `uint32_t`. -/
def u32Mod : Nat := 4294967296

/-- Value of a `uint32_t` holding `n`. -/
def u32 (n : Nat) : Nat := n % u32Mod

/-- Wrapping `uint32_t` subtraction `a - b`. -/
def u32sub (a b : Nat) : Nat := (u32Mod + a % u32Mod - b % u32Mod) % u32Mod

/-- Wrapping `uint32_t` multiplication `a * b`. -/
def u32mul (a b : Nat) : Nat := (a * b) % u32Mod

/-- The `TimerState` enum of `types.h` / `main.cpp`. -/
inductive TimerState where
  | STATE_IDLE
  | STATE_RUNNING
  | STATE_PAUSED
  | STATE_SHORT_BREAK
  | STATE_LONG_BREAK
  | STATE_SETTINGS
deriving DecidableEq, Repr

open TimerState

/-- The `PomodoroSettings` struct: `uint16_t` durations in seconds and the
`uint8_t` pomodoros-until-long-break count. -/
structure PomodoroSettings where
  workDuration : Nat
  shortBreakDuration : Nat
  longBreakDuration : Nat
  pomodorosUntilLongBreak : Nat
deriving DecidableEq, Repr

/-- The complete mutable state touched by the timer core: the private fields
of `TimerManager` (equally, the corresponding globals of `main.cpp`) together
with the by-reference parameters `currentState`, `settings`,
`completedPomodoros` and `needsRedraw`. -/
structure World where
  timerStartTime : Nat
  timerRemaining : Nat
  timerDuration : Nat
  lastPomodoroDuration : Nat
  stateBeforePause : TimerState
  timerCompleted : Bool
  timerCompletionTime : Nat
  beepState : Nat
  lastBeepTime : Nat
  currentState : TimerState
  settings : PomodoroSettings
  completedPomodoros : Nat
  needsRedraw : Bool
deriving DecidableEq, Repr

/-- Initial state: `TimerManager`'s constructor zeroes every private field,
and the `main.cpp` globals start at `STATE_IDLE` with the default settings
(25 min work, 5 min short break, 25 min long break, 4 pomodoros per long
break), `completedPomodoros = 0` and `needsRedraw = true`. -/
def initialWorld : World :=
  { timerStartTime := 0
    timerRemaining := 0
    timerDuration := 0
    lastPomodoroDuration := 0
    stateBeforePause := STATE_IDLE
    timerCompleted := false
    timerCompletionTime := 0
    beepState := 0
    lastBeepTime := 0
    currentState := STATE_IDLE
    settings :=
      { workDuration := 1500
        shortBreakDuration := 300
        longBreakDuration := 1500
        pomodorosUntilLongBreak := 4 }
    completedPomodoros := 0
    needsRedraw := true }

/-- `TimerManager::getShortBreakDuration` (TimerManager.cpp:272-274). -/
def TimerManager.getShortBreakDuration (settings : PomodoroSettings) : Nat :=
  settings.shortBreakDuration

/-- `TimerManager::getLongBreakDuration` (TimerManager.cpp:276-278). -/
def TimerManager.getLongBreakDuration (settings : PomodoroSettings) : Nat :=
  settings.longBreakDuration

/-- `TimerManager::start` (TimerManager.cpp:160-189). `now` is the `millis()`
reading taken at the call. -/
def TimerManager.start (duration : Nat) (now : Nat) (w : World) : World :=
  let w1 := { w with
    timerDuration := duration
    timerRemaining := duration
    timerStartTime := u32 now
    timerCompleted := false
    timerCompletionTime := 0
    beepState := 0
    lastBeepTime := 0 }
  if w1.currentState = STATE_IDLE ∨ w1.currentState = STATE_PAUSED then
    { w1 with currentState := STATE_RUNNING, lastPomodoroDuration := duration }
  else
    w1

/-- `TimerManager::pause` (TimerManager.cpp:191-198). -/
def TimerManager.pause (w : World) : World :=
  if w.currentState = STATE_RUNNING ∨ w.currentState = STATE_SHORT_BREAK ∨
      w.currentState = STATE_LONG_BREAK then
    { w with stateBeforePause := w.currentState, currentState := STATE_PAUSED }
  else
    w

/-- `TimerManager::resume` (TimerManager.cpp:200-208). `now` is the `millis()`
reading taken at the call; `timerStartTime` is recomputed with wrapping
`uint32_t` arithmetic as `millis() - ((timerDuration - timerRemaining) * 1000)`. -/
def TimerManager.resume (now : Nat) (w : World) : World :=
  if w.currentState = STATE_PAUSED then
    { w with
      timerStartTime := u32sub (u32 now) (u32mul (u32sub w.timerDuration w.timerRemaining) 1000)
      currentState := w.stateBeforePause }
  else
    w

/-- `TimerManager::reset` (TimerManager.cpp:210-219). -/
def TimerManager.reset (w : World) : World :=
  { w with
    timerRemaining := w.settings.workDuration
    timerDuration := w.settings.workDuration
    timerStartTime := 0
    timerCompleted := false
    timerCompletionTime := 0
    beepState := 0
    lastBeepTime := 0
    currentState := STATE_IDLE }

/-- `TimerManager::updateTimer` (TimerManager.cpp:32-63). `now` is the
`millis()` reading of the tick (both `millis()` calls of the body happen in
the same iteration and are identified). -/
def TimerManager.updateTimer (now : Nat) (w : World) : World :=
  if w.timerStartTime = 0 then w
  else
    let elapsed := u32sub (u32 now) w.timerStartTime / 1000
    if w.timerDuration ≤ elapsed then
      let w1 := { w with timerRemaining := 0 }
      if w1.timerCompletionTime = 0 then
        { w1 with timerCompleted := true, timerCompletionTime := u32 now }
      else
        w1
    else
      { w with timerRemaining := w.timerDuration - elapsed, timerCompleted := false }

/-- `TimerManager::completeSession` (TimerManager.cpp:221-269). `now` is the
`millis()` reading at which any nested `start` stamps the new countdown. -/
def TimerManager.completeSession (now : Nat) (w : World) : World :=
  let w1 :=
    if w.currentState = STATE_RUNNING then
      let newCount := (w.completedPomodoros + 1) % 256
      let w2 := { w with completedPomodoros := newCount }
      if newCount % w2.settings.pomodorosUntilLongBreak = 0 then
        TimerManager.start (TimerManager.getLongBreakDuration w2.settings) now
          { w2 with currentState := STATE_LONG_BREAK }
      else
        TimerManager.start (TimerManager.getShortBreakDuration w2.settings) now
          { w2 with currentState := STATE_SHORT_BREAK }
    else if w.currentState = STATE_SHORT_BREAK then
      let durationToUse :=
        if 0 < w.lastPomodoroDuration then w.lastPomodoroDuration
        else w.settings.workDuration
      TimerManager.start durationToUse now
        { w with currentState := STATE_RUNNING, lastPomodoroDuration := durationToUse }
    else
      TimerManager.reset { w with currentState := STATE_IDLE }
  { w1 with needsRedraw := true }

/-- Guard under which `TimerManager::handleTimerCompletion`
(TimerManager.cpp:65-157) enters its beep block and the alert sequence
actually begins: a pending completion, an active timer state, at least
1000 ms since `timerCompletionTime`, and `beepState == 0`. -/
def TimerManager.alertFires (now : Nat) (w : World) : Prop :=
  w.timerCompletionTime ≠ 0 ∧
  (w.currentState = STATE_RUNNING ∨ w.currentState = STATE_SHORT_BREAK ∨
    w.currentState = STATE_LONG_BREAK) ∧
  1000 ≤ u32sub (u32 now) w.timerCompletionTime ∧
  w.beepState = 0

instance (now : Nat) (w : World) : Decidable (TimerManager.alertFires now w) := by
  unfold TimerManager.alertFires
  infer_instance

/-- `TimerManager::handleTimerCompletion` (TimerManager.cpp:65-157). `now` is
the `millis()` reading on entry; `nowAfter` is the reading after the blocking
~2.45 s beep sequence, at which `completeSession` stamps the next countdown.
Inside the beep block the source sets `beepState = 1`, plays the tones, then
resets `timerCompletionTime = 0` and `beepState = 0` before calling
`completeSession`; the transient `beepState = 1` is not observable between
calls, so the net state change is modelled directly. -/
def TimerManager.handleTimerCompletion (now nowAfter : Nat) (w : World) : World :=
  if w.timerCompletionTime = 0 then w
  else if w.currentState ≠ STATE_RUNNING ∧ w.currentState ≠ STATE_SHORT_BREAK ∧
      w.currentState ≠ STATE_LONG_BREAK then w
  else if 1000 ≤ u32sub (u32 now) w.timerCompletionTime ∧ w.beepState = 0 then
    TimerManager.completeSession nowAfter
      { w with timerCompletionTime := 0, beepState := 0 }
  else
    w

/-- `TimerManager::update` (TimerManager.cpp:21-30): the per-iteration tick. -/
def TimerManager.update (now nowAfter : Nat) (w : World) : World :=
  if w.currentState = STATE_RUNNING ∨ w.currentState = STATE_SHORT_BREAK ∨
      w.currentState = STATE_LONG_BREAK then
    TimerManager.handleTimerCompletion now nowAfter (TimerManager.updateTimer now w)
  else
    w

/-- `getShortBreakDuration` of `main.cpp` (main.cpp:926-928). -/
def Main.getShortBreakDuration (settings : PomodoroSettings) : Nat :=
  settings.shortBreakDuration

/-- `getLongBreakDuration` of `main.cpp` (main.cpp:930-932). -/
def Main.getLongBreakDuration (settings : PomodoroSettings) : Nat :=
  settings.longBreakDuration

/-- `startTimer` of `main.cpp` (main.cpp:771-800). -/
def Main.startTimer (duration : Nat) (now : Nat) (w : World) : World :=
  let w1 := { w with
    timerDuration := duration
    timerRemaining := duration
    timerStartTime := u32 now
    timerCompleted := false
    timerCompletionTime := 0
    beepState := 0
    lastBeepTime := 0 }
  if w1.currentState = STATE_IDLE ∨ w1.currentState = STATE_PAUSED then
    { w1 with currentState := STATE_RUNNING, lastPomodoroDuration := duration }
  else
    w1

/-- `pauseTimer` of `main.cpp` (main.cpp:802-809). -/
def Main.pauseTimer (w : World) : World :=
  if w.currentState = STATE_RUNNING ∨ w.currentState = STATE_SHORT_BREAK ∨
      w.currentState = STATE_LONG_BREAK then
    { w with stateBeforePause := w.currentState, currentState := STATE_PAUSED }
  else
    w

/-- `resumeTimer` of `main.cpp` (main.cpp:811-819). -/
def Main.resumeTimer (now : Nat) (w : World) : World :=
  if w.currentState = STATE_PAUSED then
    { w with
      timerStartTime := u32sub (u32 now) (u32mul (u32sub w.timerDuration w.timerRemaining) 1000)
      currentState := w.stateBeforePause }
  else
    w

/-- `resetTimer` of `main.cpp` (main.cpp:821-826). Unlike `TimerManager::reset`
it touches only `timerRemaining`, `timerDuration`, `timerStartTime` and
`currentState`. -/
def Main.resetTimer (w : World) : World :=
  { w with
    timerRemaining := w.settings.workDuration
    timerDuration := w.settings.workDuration
    timerStartTime := 0
    currentState := STATE_IDLE }

/-- `updateTimer` of `main.cpp` (main.cpp:536-569). Unlike
`TimerManager::updateTimer` it also sets `needsRedraw = true` when it stamps
`timerCompletionTime`. -/
def Main.updateTimer (now : Nat) (w : World) : World :=
  if w.timerStartTime = 0 then w
  else
    let elapsed := u32sub (u32 now) w.timerStartTime / 1000
    if w.timerDuration ≤ elapsed then
      let w1 := { w with timerRemaining := 0 }
      if w1.timerCompletionTime = 0 then
        { w1 with timerCompleted := true, timerCompletionTime := u32 now,
                  needsRedraw := true }
      else
        w1
    else
      { w with timerRemaining := w.timerDuration - elapsed, timerCompleted := false }

/-- `completeSession` of `main.cpp` (main.cpp:828-873). -/
def Main.completeSession (now : Nat) (w : World) : World :=
  let w1 :=
    if w.currentState = STATE_RUNNING then
      let newCount := (w.completedPomodoros + 1) % 256
      let w2 := { w with completedPomodoros := newCount }
      if newCount % w2.settings.pomodorosUntilLongBreak = 0 then
        Main.startTimer (Main.getLongBreakDuration w2.settings) now
          { w2 with currentState := STATE_LONG_BREAK }
      else
        Main.startTimer (Main.getShortBreakDuration w2.settings) now
          { w2 with currentState := STATE_SHORT_BREAK }
    else if w.currentState = STATE_SHORT_BREAK then
      let durationToUse :=
        if 0 < w.lastPomodoroDuration then w.lastPomodoroDuration
        else w.settings.workDuration
      Main.startTimer durationToUse now
        { w with currentState := STATE_RUNNING, lastPomodoroDuration := durationToUse }
    else
      Main.resetTimer { w with currentState := STATE_IDLE }
  { w1 with needsRedraw := true }

/-- `handleTimerCompletion` of `main.cpp` (main.cpp:571-661); same modelling
conventions as `TimerManager.handleTimerCompletion`. -/
def Main.handleTimerCompletion (now nowAfter : Nat) (w : World) : World :=
  if w.timerCompletionTime = 0 then w
  else if w.currentState ≠ STATE_RUNNING ∧ w.currentState ≠ STATE_SHORT_BREAK ∧
      w.currentState ≠ STATE_LONG_BREAK then w
  else if 1000 ≤ u32sub (u32 now) w.timerCompletionTime ∧ w.beepState = 0 then
    Main.completeSession nowAfter
      { w with timerCompletionTime := 0, beepState := 0 }
  else
    w

/-- Comparison device for the refinement claim: a world with the
display-layer `needsRedraw` flag blanked, so that two implementations can be
compared on the timer-runtime and session-state fields only (the spec's
`TimerRuntime` record does not include the redraw signal). -/
def World.eraseRedraw (w : World) : World :=
  { w with needsRedraw := false }

/-! ## Arithmetic helper lemmas for the wrapping `uint32_t` operations -/

theorem u32_eq_of_lt {n : Nat} (h : n < u32Mod) : u32 n = n :=
  Nat.mod_eq_of_lt h

theorem u32sub_eq {a b : Nat} (hba : b ≤ a) (ha : a < u32Mod) : u32sub a b = a - b := by
  unfold u32sub
  rw [Nat.mod_eq_of_lt ha, Nat.mod_eq_of_lt (Nat.lt_of_le_of_lt hba ha)]
  have h1 : u32Mod + a - b = u32Mod + (a - b) := by omega
  rw [h1, Nat.add_mod_left]
  exact Nat.mod_eq_of_lt (by omega)

theorem u32mul_eq {a b : Nat} (h : a * b < u32Mod) : u32mul a b = a * b :=
  Nat.mod_eq_of_lt h

/-- C4: Reset totality — from any prior state, `TimerManager::reset` yields
session state `Idle`, `remaining == total == workSeconds` read from the
current configuration, `startTimestamp == 0`, `completionTimestamp == 0`
and `alertPhase == 0` (`beepState`). -/
theorem reset_totality (w : World) :
    (TimerManager.reset w).currentState = STATE_IDLE ∧
    (TimerManager.reset w).timerRemaining = w.settings.workDuration ∧
    (TimerManager.reset w).timerDuration = w.settings.workDuration ∧
    (TimerManager.reset w).timerStartTime = 0 ∧
    (TimerManager.reset w).timerCompletionTime = 0 ∧
    (TimerManager.reset w).beepState = 0 := by
  simp [TimerManager.reset]

/-- C9: No-op on invalid state — `resume()` in any session state other than
`Paused`, and `pause()` in any session state other than `Running`,
`ShortBreak` or `LongBreak`, leave the entire timer runtime (every field of
the world, session state included) unchanged. -/
theorem invalid_state_noop (now : Nat) (w : World) :
    (w.currentState ≠ STATE_PAUSED → TimerManager.resume now w = w) ∧
    (w.currentState ≠ STATE_RUNNING → w.currentState ≠ STATE_SHORT_BREAK →
      w.currentState ≠ STATE_LONG_BREAK → TimerManager.pause w = w) := by
  constructor
  · intro h
    simp [TimerManager.resume, h]
  · intro h1 h2 h3
    simp [TimerManager.pause, h1, h2, h3]

/-- Witness for C9 at the initial (idle) state. -/
theorem invalid_state_noop_witness :
    TimerManager.resume 5 initialWorld = initialWorld ∧
    TimerManager.pause initialWorld = initialWorld :=
  ⟨(invalid_state_noop 5 initialWorld).1 (by decide),
   (invalid_state_noop 5 initialWorld).2 (by decide) (by decide) (by decide)⟩

/-- C6: Completion latch — when the timer has been started
(`startTimestamp != 0`) and the elapsed-seconds computation reaches the
total duration, `updateTimer` clamps `remaining` to `0`; on the first such
tick (`completionTimestamp == 0`) it stamps `completionTimestamp` with the
(nonzero) current `millis()` reading and raises the completed flag, while
every later tick leaves `completionTimestamp` and the completed flag
untouched. -/
theorem completion_latch (now : Nat) (w : World)
    (hs : w.timerStartTime ≠ 0)
    (he : w.timerDuration ≤ u32sub (u32 now) w.timerStartTime / 1000)
    (hn : u32 now ≠ 0) :
    (TimerManager.updateTimer now w).timerRemaining = 0 ∧
    (w.timerCompletionTime = 0 →
      (TimerManager.updateTimer now w).timerCompletionTime = u32 now ∧
      (TimerManager.updateTimer now w).timerCompletionTime ≠ 0 ∧
      (TimerManager.updateTimer now w).timerCompleted = true) ∧
    (w.timerCompletionTime ≠ 0 →
      (TimerManager.updateTimer now w).timerCompletionTime = w.timerCompletionTime ∧
      (TimerManager.updateTimer now w).timerCompleted = w.timerCompleted) := by
  by_cases hc : w.timerCompletionTime = 0 <;>
    simp [TimerManager.updateTimer, hs, he, hc, hn]

/-- Witness for C6: a 2-second countdown started at `millis() = 1`, ticked at
`millis() = 3000`. -/
theorem completion_latch_witness :
    (TimerManager.updateTimer 3000
      { initialWorld with timerStartTime := 1, timerDuration := 2 }).timerRemaining = 0 ∧
    (TimerManager.updateTimer 3000
      { initialWorld with timerStartTime := 1, timerDuration := 2 }).timerCompletionTime = 3000 := by
  have h := completion_latch 3000 { initialWorld with timerStartTime := 1, timerDuration := 2 }
    (by decide) (by decide) (by decide)
  exact ⟨h.1, (h.2.1 rfl).1⟩

/-- C3: Work-session chaining — completing a session while the state is
`Running` increments `completedPomodoros` by one, then transitions to
`LongBreak` and starts a `longBreakDuration` countdown exactly when the new
count is a multiple of `pomodorosUntilLongBreak`, and otherwise transitions
to `ShortBreak` and starts a `shortBreakDuration` countdown. Stated below
the `uint8_t` wrap point (`completedPomodoros < 255`) and for an in-range
configuration (`pomodorosUntilLongBreak > 0`, C++ `%` by zero being
undefined). -/
theorem work_session_chaining (now : Nat) (w : World)
    (hw : w.currentState = STATE_RUNNING)
    (hp : 0 < w.settings.pomodorosUntilLongBreak)
    (hc : w.completedPomodoros < 255) :
    (TimerManager.completeSession now w).completedPomodoros = w.completedPomodoros + 1 ∧
    ((w.completedPomodoros + 1) % w.settings.pomodorosUntilLongBreak = 0 →
      (TimerManager.completeSession now w).currentState = STATE_LONG_BREAK ∧
      (TimerManager.completeSession now w).timerDuration = w.settings.longBreakDuration ∧
      (TimerManager.completeSession now w).timerRemaining = w.settings.longBreakDuration ∧
      (TimerManager.completeSession now w).timerStartTime = u32 now) ∧
    ((w.completedPomodoros + 1) % w.settings.pomodorosUntilLongBreak ≠ 0 →
      (TimerManager.completeSession now w).currentState = STATE_SHORT_BREAK ∧
      (TimerManager.completeSession now w).timerDuration = w.settings.shortBreakDuration ∧
      (TimerManager.completeSession now w).timerRemaining = w.settings.shortBreakDuration ∧
      (TimerManager.completeSession now w).timerStartTime = u32 now) := by
  have h256 : (w.completedPomodoros + 1) % 256 = w.completedPomodoros + 1 :=
    Nat.mod_eq_of_lt (by omega)
  by_cases hdiv : (w.completedPomodoros + 1) % w.settings.pomodorosUntilLongBreak = 0 <;>
    simp [TimerManager.completeSession, TimerManager.start,
      TimerManager.getLongBreakDuration, TimerManager.getShortBreakDuration,
      hw, h256, hdiv]

/-- Witness for C3: first completion under the default configuration
(count `0 → 1`, `1 % 4 ≠ 0`, so a 300 s short break starts). -/
theorem work_session_chaining_witness :
    (TimerManager.completeSession 50
      { initialWorld with currentState := STATE_RUNNING }).completedPomodoros = 1 ∧
    (TimerManager.completeSession 50
      { initialWorld with currentState := STATE_RUNNING }).currentState = STATE_SHORT_BREAK ∧
    (TimerManager.completeSession 50
      { initialWorld with currentState := STATE_RUNNING }).timerDuration = 300 := by
  have h := work_session_chaining 50 { initialWorld with currentState := STATE_RUNNING }
    rfl (by decide) (by decide)
  exact ⟨h.1, (h.2.2 (by decide)).1, (h.2.2 (by decide)).2.1⟩

/-- C7: Short-break restart duration — completing a session while the state
is `ShortBreak` transitions to `Running` and starts a countdown of
`lastPomodoroDuration` when it is positive (regardless of the current
`workDuration` configuration), and of the configured `workDuration` when
`lastPomodoroDuration == 0`. -/
theorem short_break_restart (now : Nat) (w : World)
    (hw : w.currentState = STATE_SHORT_BREAK) :
    (0 < w.lastPomodoroDuration →
      (TimerManager.completeSession now w).currentState = STATE_RUNNING ∧
      (TimerManager.completeSession now w).timerDuration = w.lastPomodoroDuration ∧
      (TimerManager.completeSession now w).timerRemaining = w.lastPomodoroDuration ∧
      (TimerManager.completeSession now w).lastPomodoroDuration = w.lastPomodoroDuration ∧
      (TimerManager.completeSession now w).timerStartTime = u32 now) ∧
    (w.lastPomodoroDuration = 0 →
      (TimerManager.completeSession now w).currentState = STATE_RUNNING ∧
      (TimerManager.completeSession now w).timerDuration = w.settings.workDuration ∧
      (TimerManager.completeSession now w).timerRemaining = w.settings.workDuration ∧
      (TimerManager.completeSession now w).lastPomodoroDuration = w.settings.workDuration ∧
      (TimerManager.completeSession now w).timerStartTime = u32 now) := by
  by_cases hl : 0 < w.lastPomodoroDuration <;>
    simp [TimerManager.completeSession, TimerManager.start, hw, hl] <;>
    omega

/-- Witness for C7: a 1200 s work session chained out of a short break even
though `workDuration` was edited to 900 s in the meantime. -/
theorem short_break_restart_witness :
    (TimerManager.completeSession 70
      { initialWorld with
        currentState := STATE_SHORT_BREAK
        lastPomodoroDuration := 1200
        settings :=
          { workDuration := 900, shortBreakDuration := 180, longBreakDuration := 900, pomodorosUntilLongBreak := 4 } }).currentState
        = STATE_RUNNING ∧
    (TimerManager.completeSession 70
      { initialWorld with
        currentState := STATE_SHORT_BREAK
        lastPomodoroDuration := 1200
        settings :=
          { workDuration := 900, shortBreakDuration := 180, longBreakDuration := 900, pomodorosUntilLongBreak := 4 } }).timerDuration
        = 1200 := by
  have h := short_break_restart 70
    { initialWorld with
      currentState := STATE_SHORT_BREAK
      lastPomodoroDuration := 1200
      settings :=
        { workDuration := 900, shortBreakDuration := 180, longBreakDuration := 900, pomodorosUntilLongBreak := 4 } } rfl
  exact ⟨(h.1 (by decide)).1, (h.1 (by decide)).2.1⟩

/-- C1: Countdown correctness — starting a `duration > 0` countdown at a
`millis()` reading `m0` and ticking after the monotonic clock advanced by
exactly `elapsed` seconds (`elapsed < duration`, the `uint32_t` counter not
wrapping during the session) leaves `remaining = duration - elapsed`,
computed from the stored start timestamp by integer division of the
millisecond difference by 1000. -/
theorem countdown_correctness (w : World) (duration elapsed m0 nowAfter : Nat)
    (hw : w.currentState = STATE_IDLE)
    (hd : 0 < duration)
    (he : elapsed < duration)
    (hm0 : 0 < m0)
    (hwrap : m0 + elapsed * 1000 < u32Mod) :
    (TimerManager.update (m0 + elapsed * 1000) nowAfter
      (TimerManager.start duration m0 w)).timerRemaining = duration - elapsed := by
  have hu0 : u32 m0 = m0 := u32_eq_of_lt (by omega)
  have hu1 : u32 (m0 + elapsed * 1000) = m0 + elapsed * 1000 := u32_eq_of_lt hwrap
  have hsub : u32sub (m0 + elapsed * 1000) m0 = elapsed * 1000 := by
    rw [u32sub_eq (by omega) hwrap]; omega
  have hdiv : elapsed * 1000 / 1000 = elapsed := by omega
  have hne : ¬ (duration ≤ elapsed) := by omega
  have hm0ne : ¬ (m0 = 0) := by omega
  simp [TimerManager.update, TimerManager.start, TimerManager.updateTimer,
    TimerManager.handleTimerCompletion, hw, hu0, hu1, hsub, hdiv, hne, hm0ne]

/-- Witness for C1: a 1500 s session started at `millis() = 1`, ticked 8
seconds later, shows 1492 s remaining. -/
theorem countdown_correctness_witness :
    (TimerManager.update 8001 0
      (TimerManager.start 1500 1 initialWorld)).timerRemaining = 1492 :=
  countdown_correctness initialWorld 1500 8 1 0 rfl (by decide) (by decide)
    (by decide) (by decide)

/-- C2: Pause/resume identity — after `start(D)` at reading `m0`, a tick `k`
seconds later, `pause()`, an arbitrary wall-time advance to reading `mr`,
`resume()` and an immediate tick, `remaining` is again `D - k` and the
session is back in `Running`; the pause duration `mr` is arbitrary (within a
non-wrapping `uint32_t` clock) because `resume` reconstructs
`startTimestamp = now() - (totalDuration - remaining) * 1000`. -/
theorem pause_resume_identity (w : World) (D k m0 mr nowAfter : Nat)
    (hw : w.currentState = STATE_IDLE)
    (hk : k < D)
    (hD : D < u32Mod)
    (hm0 : 0 < m0)
    (hwrap : m0 + k * 1000 < u32Mod)
    (hadv : m0 + k * 1000 ≤ mr)
    (hmr : mr < u32Mod) :
    (TimerManager.update mr nowAfter
      (TimerManager.resume mr
        (TimerManager.pause
          (TimerManager.update (m0 + k * 1000) nowAfter
            (TimerManager.start D m0 w))))).timerRemaining = D - k ∧
    (TimerManager.update mr nowAfter
      (TimerManager.resume mr
        (TimerManager.pause
          (TimerManager.update (m0 + k * 1000) nowAfter
            (TimerManager.start D m0 w))))).currentState = STATE_RUNNING := by
  have hu0 : u32 m0 = m0 := u32_eq_of_lt (by omega)
  have hu1 : u32 (m0 + k * 1000) = m0 + k * 1000 := u32_eq_of_lt hwrap
  have hsub1 : u32sub (m0 + k * 1000) m0 = k * 1000 := by
    rw [u32sub_eq (by omega) hwrap]; omega
  have hdiv1 : k * 1000 / 1000 = k := by omega
  have hnle : ¬ (D ≤ k) := by omega
  have hm0ne : ¬ (m0 = 0) := by omega
  have hsubD : u32sub D (D - k) = k := by
    rw [u32sub_eq (by omega) hD]; omega
  have hmul : u32mul k 1000 = k * 1000 := u32mul_eq (by omega)
  have humr : u32 mr = mr := u32_eq_of_lt hmr
  have hsub2 : u32sub mr (k * 1000) = mr - k * 1000 := u32sub_eq (by omega) hmr
  have hne2 : ¬ (mr - k * 1000 = 0) := by omega
  have hsub3 : u32sub mr (mr - k * 1000) = k * 1000 := by
    rw [u32sub_eq (by omega) hmr]; omega
  simp [TimerManager.update, TimerManager.start, TimerManager.pause,
    TimerManager.resume, TimerManager.updateTimer, TimerManager.handleTimerCompletion,
    hw, hu0, hu1, hsub1, hdiv1, hnle, hm0ne, hsubD, hmul, humr, hsub2, hne2, hsub3]

/-- Witness for C2: a 1500 s session paused 8 s in and resumed at
`millis() = 999999` still shows 1492 s remaining on the next tick. -/
theorem pause_resume_identity_witness :
    (TimerManager.update 999999 0
      (TimerManager.resume 999999
        (TimerManager.pause
          (TimerManager.update 8001 0
            (TimerManager.start 1500 1 initialWorld))))).timerRemaining = 1492 ∧
    (TimerManager.update 999999 0
      (TimerManager.resume 999999
        (TimerManager.pause
          (TimerManager.update 8001 0
            (TimerManager.start 1500 1 initialWorld))))).currentState = STATE_RUNNING :=
  pause_resume_identity initialWorld 1500 8 1 999999 0 rfl (by decide) (by decide)
    (by decide) (by decide) (by decide) (by decide)

/-- Every branch of `completeSession` goes through `start` or `reset`, both
of which clear `timerCompletionTime` and `beepState`. -/
theorem completeSession_clears (now : Nat) (w : World) :
    (TimerManager.completeSession now w).timerCompletionTime = 0 ∧
    (TimerManager.completeSession now w).beepState = 0 := by
  unfold TimerManager.completeSession TimerManager.start TimerManager.reset
  split_ifs <;> simp [apply_ite]

/-- C5: Alert gating — the beep block of `handleTimerCompletion` fires only
when at least 1000 ms have elapsed since `completionTimestamp` was stamped;
before that delay, once the sequence has started (`beepState != 0`), or with
no pending completion, the call is a strict no-op; and when it does fire it
clears `completionTimestamp`, so the same completion can never fire it a
second time. -/
theorem alert_gating (now nowAfter : Nat) (w : World) :
    (TimerManager.alertFires now w →
      1000 ≤ u32sub (u32 now) w.timerCompletionTime ∧
      w.timerCompletionTime ≠ 0 ∧ w.beepState = 0) ∧
    (u32sub (u32 now) w.timerCompletionTime < 1000 →
      ¬ TimerManager.alertFires now w ∧
      TimerManager.handleTimerCompletion now nowAfter w = w) ∧
    (w.beepState ≠ 0 →
      ¬ TimerManager.alertFires now w ∧
      TimerManager.handleTimerCompletion now nowAfter w = w) ∧
    (w.timerCompletionTime = 0 →
      ¬ TimerManager.alertFires now w ∧
      TimerManager.handleTimerCompletion now nowAfter w = w) ∧
    (TimerManager.alertFires now w →
      (TimerManager.handleTimerCompletion now nowAfter w).timerCompletionTime = 0 ∧
      (TimerManager.handleTimerCompletion now nowAfter w).beepState = 0 ∧
      ¬ TimerManager.alertFires nowAfter (TimerManager.handleTimerCompletion now nowAfter w)) := by
  refine ⟨?_, ?_, ?_, ?_, ?_⟩
  · intro ha
    exact ⟨ha.2.2.1, ha.1, ha.2.2.2⟩
  · intro h
    refine ⟨fun ha => absurd ha.2.2.1 (by omega), ?_⟩
    simp only [TimerManager.handleTimerCompletion]
    split_ifs with h1 h2 h3
    · rfl
    · rfl
    · exact absurd h3.1 (by omega)
    · rfl
  · intro h
    refine ⟨fun ha => absurd ha.2.2.2 h, ?_⟩
    simp only [TimerManager.handleTimerCompletion]
    split_ifs with h1 h2 h3
    · rfl
    · rfl
    · exact absurd h3.2 h
    · rfl
  · intro h
    refine ⟨fun ha => absurd h ha.1, ?_⟩
    simp [TimerManager.handleTimerCompletion, h]
  · intro ha
    obtain ⟨h1, h2, h3, h4⟩ := ha
    have hred : TimerManager.handleTimerCompletion now nowAfter w =
        TimerManager.completeSession nowAfter
          { w with timerCompletionTime := 0, beepState := 0 } := by
      simp only [TimerManager.handleTimerCompletion]
      rw [if_neg h1, if_neg (by rcases h2 with h | h | h <;> simp [h]), if_pos ⟨h3, h4⟩]
    rw [hred]
    have hc := completeSession_clears nowAfter
      { w with timerCompletionTime := 0, beepState := 0 }
    exact ⟨hc.1, hc.2, fun hfire => hfire.1 hc.1⟩

/-- Witness for C5: a completion stamped at 500 ms and ticked at 2000 ms
fires the alert and clears the latch; at 1200 ms (700 ms after the stamp)
nothing happens. -/
theorem alert_gating_witness :
    (TimerManager.handleTimerCompletion 2000 3000
      { initialWorld with currentState := STATE_RUNNING, timerCompletionTime := 500 }).timerCompletionTime = 0 ∧
    ¬ TimerManager.alertFires 1200
      { initialWorld with currentState := STATE_RUNNING, timerCompletionTime := 500 } ∧
    TimerManager.handleTimerCompletion 1200 3000
      { initialWorld with currentState := STATE_RUNNING, timerCompletionTime := 500 }
      = { initialWorld with currentState := STATE_RUNNING, timerCompletionTime := 500 } := by
  refine ⟨?_, ?_, ?_⟩
  · exact ((alert_gating 2000 3000
      { initialWorld with currentState := STATE_RUNNING, timerCompletionTime := 500 }).2.2.2.2
      (by decide)).1
  · exact ((alert_gating 1200 3000
      { initialWorld with currentState := STATE_RUNNING, timerCompletionTime := 500 }).2.1
      (by decide)).1
  · exact ((alert_gating 1200 3000
      { initialWorld with currentState := STATE_RUNNING, timerCompletionTime := 500 }).2.1
      (by decide)).2

/-- Counterexample to C8 as stated: with 255 completed pomodoros (a `uint8_t`
at its maximum), completing another `Running` session wraps the counter to
`0` — a strict decrease, so `completedPomodoros` is not monotonically
increasing across the process lifetime. -/
theorem completed_count_wrap_counterexample :
    (TimerManager.completeSession 9999
      { initialWorld with currentState := STATE_RUNNING, completedPomodoros := 255 }).completedPomodoros
      < ({ initialWorld with currentState := STATE_RUNNING, completedPomodoros := 255 } : World).completedPomodoros := by
  decide

/-- C8 (amended): each work-session completion sets `completedPomodoros` to
`(completedPomodoros + 1) % 256` — a strict increase whenever the old count
is below 255, wrapping to `0` at 255 because the counter is a `uint8_t` —
and no other core operation (`reset`, `pause`, `resume`, `start`,
`updateTimer`) changes it; in particular the core's own `reset()` leaves
`completedPomodoros` unchanged. -/
theorem completed_count_behavior (now d mr : Nat) (w : World) :
    (w.currentState = STATE_RUNNING →
      (TimerManager.completeSession now w).completedPomodoros
        = (w.completedPomodoros + 1) % 256 ∧
      (w.completedPomodoros < 255 →
        w.completedPomodoros < (TimerManager.completeSession now w).completedPomodoros)) ∧
    (TimerManager.reset w).completedPomodoros = w.completedPomodoros ∧
    (TimerManager.pause w).completedPomodoros = w.completedPomodoros ∧
    (TimerManager.resume mr w).completedPomodoros = w.completedPomodoros ∧
    (TimerManager.start d now w).completedPomodoros = w.completedPomodoros ∧
    (TimerManager.updateTimer now w).completedPomodoros = w.completedPomodoros := by
  refine ⟨?_, ?_, ?_, ?_, ?_, ?_⟩
  · intro hw
    have hcount : (TimerManager.completeSession now w).completedPomodoros
        = (w.completedPomodoros + 1) % 256 := by
      by_cases hdiv :
          (w.completedPomodoros + 1) % 256 % w.settings.pomodorosUntilLongBreak = 0 <;>
        simp [TimerManager.completeSession, TimerManager.start, hw, hdiv]
    refine ⟨hcount, fun hc => ?_⟩
    rw [hcount, Nat.mod_eq_of_lt (by omega)]
    omega
  · simp [TimerManager.reset]
  · simp only [TimerManager.pause]
    split_ifs <;> rfl
  · simp only [TimerManager.resume]
    split_ifs <;> rfl
  · simp only [TimerManager.start]
    split_ifs <;> rfl
  · simp only [TimerManager.updateTimer]
    split_ifs <;> rfl

/-- Witness for C8 (amended): the first completion raises the count to 1 and
a reset leaves it at 0. -/
theorem completed_count_behavior_witness :
    (TimerManager.completeSession 5
      { initialWorld with currentState := STATE_RUNNING }).completedPomodoros = 1 ∧
    (TimerManager.reset { initialWorld with currentState := STATE_RUNNING }).completedPomodoros
      = 0 := by
  have h := completed_count_behavior 5 7 9 { initialWorld with currentState := STATE_RUNNING }
  exact ⟨(h.1 rfl).1, h.2.1⟩

/-- The modular and monolithic `completeSession` agree whenever the session
state is `Running` or `ShortBreak` (the `LongBreak` branch is the one that
goes through the two diverging resets). -/
theorem main_tm_completeSession_active_eq (now : Nat) (w : World)
    (h : w.currentState = STATE_RUNNING ∨ w.currentState = STATE_SHORT_BREAK) :
    Main.completeSession now w = TimerManager.completeSession now w := by
  rcases h with h | h <;>
    simp [Main.completeSession, TimerManager.completeSession,
      Main.startTimer, TimerManager.start,
      Main.getLongBreakDuration, TimerManager.getLongBreakDuration,
      Main.getShortBreakDuration, TimerManager.getShortBreakDuration, h]

/-- Counterexample to C10 as stated: on a state with a pending completion
(`timerCompletionTime = 7777`, `timerCompleted = true`, `beepState = 3`),
the monolithic `resetTimer` of `main.cpp` leaves the completion flag,
`completionTimestamp` and `alertPhase` untouched while `TimerManager::reset`
clears all three, so the two reset implementations do not produce the same
post-state on those fields. -/
theorem reset_divergence_counterexample :
    (Main.resetTimer
      { initialWorld with
        currentState := STATE_PAUSED
        timerCompleted := true
        timerCompletionTime := 7777
        beepState := 3 }).timerCompletionTime = 7777 ∧
    (TimerManager.reset
      { initialWorld with
        currentState := STATE_PAUSED
        timerCompleted := true
        timerCompletionTime := 7777
        beepState := 3 }).timerCompletionTime = 0 ∧
    (Main.resetTimer
      { initialWorld with
        currentState := STATE_PAUSED
        timerCompleted := true
        timerCompletionTime := 7777
        beepState := 3 }).timerCompleted = true ∧
    (TimerManager.reset
      { initialWorld with
        currentState := STATE_PAUSED
        timerCompleted := true
        timerCompletionTime := 7777
        beepState := 3 }).timerCompleted = false ∧
    (Main.resetTimer
      { initialWorld with
        currentState := STATE_PAUSED
        timerCompleted := true
        timerCompletionTime := 7777
        beepState := 3 }).beepState = 3 ∧
    (TimerManager.reset
      { initialWorld with
        currentState := STATE_PAUSED
        timerCompleted := true
        timerCompletionTime := 7777
        beepState := 3 }).beepState = 0 := by
  decide

/-- C10 (amended): the modular `TimerManager` methods and the monolithic
`main.cpp` free functions compute identical post-states for `start`, `pause`
and `resume`; the two tick updates agree on every timer-runtime and
session-state field (differing only in the display-layer `needsRedraw`
flag, which the monolithic `updateTimer` raises when stamping a completion);
session completion and completion handling agree whenever the session state
is `Running` or `ShortBreak`; and the two resets agree exactly when the
completion flag, `completionTimestamp`, `alertPhase` (`beepState`) and
`lastBeepTime` are already clear — otherwise `resetTimer` leaves those
fields unchanged while `TimerManager::reset` clears them. -/
theorem refactoring_equivalence_amended (d now nowAfter mr : Nat) (w : World) :
    Main.startTimer d now w = TimerManager.start d now w ∧
    Main.pauseTimer w = TimerManager.pause w ∧
    Main.resumeTimer mr w = TimerManager.resume mr w ∧
    World.eraseRedraw (Main.updateTimer now w)
      = World.eraseRedraw (TimerManager.updateTimer now w) ∧
    (w.currentState = STATE_RUNNING ∨ w.currentState = STATE_SHORT_BREAK →
      Main.completeSession nowAfter w = TimerManager.completeSession nowAfter w) ∧
    (w.currentState = STATE_RUNNING ∨ w.currentState = STATE_SHORT_BREAK →
      Main.handleTimerCompletion now nowAfter w
        = TimerManager.handleTimerCompletion now nowAfter w) ∧
    (w.timerCompleted = false → w.timerCompletionTime = 0 → w.beepState = 0 →
      w.lastBeepTime = 0 → Main.resetTimer w = TimerManager.reset w) := by
  refine ⟨rfl, rfl, rfl, ?_, ?_, ?_, ?_⟩
  · simp only [Main.updateTimer, TimerManager.updateTimer, World.eraseRedraw]
    split_ifs <;> rfl
  · exact main_tm_completeSession_active_eq nowAfter w
  · intro h
    simp only [Main.handleTimerCompletion, TimerManager.handleTimerCompletion]
    split_ifs <;> try rfl
    exact main_tm_completeSession_active_eq nowAfter
      { w with timerCompletionTime := 0, beepState := 0 } h
  · intro h1 h2 h3 h4
    obtain ⟨t1, t2, t3, t4, t5, t6, t7, t8, t9, t10, t11, t12, t13⟩ := w
    dsimp only at h1 h2 h3 h4
    subst h1
    subst h2
    subst h3
    subst h4
    rfl

/-- Witness for C10 (amended): completion out of `Running` and reset from the
pristine initial state agree between the two implementations. -/
theorem refactoring_equivalence_amended_witness :
    Main.completeSession 30 { initialWorld with currentState := STATE_RUNNING }
      = TimerManager.completeSession 30 { initialWorld with currentState := STATE_RUNNING } ∧
    Main.resetTimer initialWorld = TimerManager.reset initialWorld := by
  have h := refactoring_equivalence_amended 10 20 30 40
    { initialWorld with currentState := STATE_RUNNING }
  have h2 := refactoring_equivalence_amended 10 20 30 40 initialWorld
  exact ⟨h.2.2.2.2.1 (Or.inl rfl), h2.2.2.2.2.2.2 rfl rfl rfl rfl⟩
